import Mathlib

/-!
A shallow embedding of `src/option.ts` (the `option.ts` repository): an
Option/Maybe container for JavaScript values, with a smart constructor
`Option(value)` (the source's `OptionObject`), a `None` singleton, `Some`
instances carrying a value, the instance operations of `someProto` /
`makeNone`, and the static aggregate `Option.all`.

JavaScript runtime values are modelled by the inductive type `JSVal`.
`Some` options and the `None` singleton are themselves first-class values
(in the source they are functions carrying `_isSome` / `_isNone` tags), so
they appear as `JSVal` constructors; invoking such a value is `invoke`.
-/

/-- JavaScript runtime values relevant to `src/option.ts`:
`vnull` / `vundef` are `null` / `undefined`; `vbool`, `vnum`, `vstr` are
primitives; `varr` is an array; `vsome v` is a `Some(v)` instance (a
function with an `_isSome` tag, lines 139–149); `vnone` is the `None`
singleton produced by the single `makeNone()` call at line 65 (a function
with an `_isNone` tag); `vliftWrapper v` is a space-lift interop object
carrying a truthy `_isLiftWrapper` tag and a `value()` method returning
`v`; `vvalueObj v` is a plain object exposing a `value()` method returning
`v` but carrying no `_isLiftWrapper` tag (it matches the exported
`Wrapper` interface shape, lines 2–5). -/
inductive JSVal : Type where
  | vnull : JSVal
  | vundef : JSVal
  | vbool : Bool → JSVal
  | vnum : Int → JSVal
  | vstr : String → JSVal
  | varr : List JSVal → JSVal
  | vsome : JSVal → JSVal
  | vnone : JSVal
  | vliftWrapper : JSVal → JSVal
  | vvalueObj : JSVal → JSVal

open JSVal

/-- `isDef` (src/option.ts lines 193–195):
`value !== null && value !== undefined`. -/
def isDef : JSVal → Bool
  | vnull => false
  | vundef => false
  | _ => true

/-- JavaScript truthiness of a `JSVal`: `null`, `undefined`, `false`, `0`
and the empty string are falsy; arrays, functions (options) and objects
(wrappers) are always truthy. -/
def truthy : JSVal → Bool
  | vnull => false
  | vundef => false
  | vbool b => b
  | vnum n => n != 0
  | vstr s => s != ""
  | _ => true

/-- Invoking an option value as a function: a `Some` returns its captured
value (line 140: `const self: any = () => value`); the `None` singleton
returns `undefined` (line 121: `const self: any = () => undefined`). -/
def invoke : JSVal → JSVal
  | vsome x => x
  | _ => vundef

/-- The runtime option test used by `Option.all` (line 102 carries the
same tag check) and exported as `OptionObject.isOption` (lines 112–114):
a function carrying an `_isSome` or `_isNone` tag. -/
def isOption : JSVal → Bool
  | vsome _ => true
  | vnone => true
  | _ => false

/-- The truthy `_isLiftWrapper` tag test of `someProto.map` line 159. -/
def isLiftWrapper : JSVal → Bool
  | vliftWrapper _ => true
  | _ => false

/-- `.value()` on a wrapper-shaped object (both the tagged space-lift
wrapper and a plain object matching the exported `Wrapper` shape). -/
def objValue : JSVal → JSVal
  | vliftWrapper v => v
  | vvalueObj v => v
  | _ => vundef

/-- The smart constructor `OptionObject` (lines 93–95), exported as
`Option` (line 117): `isDef(value) ? Some(value) : None`. -/
def OptionObject (value : JSVal) : JSVal :=
  if isDef value then vsome value else vnone

/-- One iteration's unwrap of `Option.all` (lines 101–102):
`let value = args[i]; if (value && (value._isSome || value._isNone))
value = value()`. -/
def unwrapStep (a : JSVal) : JSVal :=
  if truthy a && isOption a then invoke a else a

/-- The loop of `OptionObject.all` (lines 98–105), instrumented with a
ghost trace (second component) listing, in order, the arguments whose
unwrap step (the `value()` invocation at line 102) was actually
evaluated.  The loop `break`s at the first argument whose (possibly
unwrapped) value fails `isDef`. -/
def allLoop : List JSVal → List JSVal × List JSVal
  | [] => ([], [])
  | a :: rest =>
    let value := unwrapStep a
    let tr0 : List JSVal := if truthy a && isOption a then [a] else []
    if isDef value then
      let p := allLoop rest
      (value :: p.1, tr0 ++ p.2)
    else
      ([], tr0)

/-- The `values` array accumulated by `OptionObject.all`. -/
def allValues (args : List JSVal) : List JSVal := (allLoop args).1

/-- Ghost observation: the arguments whose unwrap step was evaluated
during `OptionObject.all`. -/
def allUnwraps (args : List JSVal) : List JSVal := (allLoop args).2

/-- `OptionObject.all` (lines 97–110): run the loop, then
`if (values.length !== args.length) return None; return Option(values)`. -/
def OptionObject.all (args : List JSVal) : JSVal :=
  let values := allValues args
  if values.length ≠ args.length then vnone
  else OptionObject (varr values)

/-- `someProto.map` (lines 157–162): `let result = fn(this.value); if
(result && result['_isLiftWrapper']) result = result.value(); if
(isDef(result)) return Some(result); else return None`. -/
def someProto.map (value : JSVal) (fn : JSVal → JSVal) : JSVal :=
  let result0 := fn value
  let result := if truthy result0 && isLiftWrapper result0 then objValue result0 else result0
  if isDef result then vsome result else vnone

/-- `o.map(fn)` dispatched on the variant: a `Some` uses `someProto.map`;
`None.map` is `returnNone` (line 127).  Invoking `map` on a non-option
value is a runtime type error in the source, modelled as `vundef`. -/
def opMap (o : JSVal) (fn : JSVal → JSVal) : JSVal :=
  match o with
  | vsome x => someProto.map x fn
  | vnone => vnone
  | _ => vundef

/-- `o.flatMap(fn)`: `someProto.flatMap` (lines 164–166) is
`fn(this.value)`; `None.flatMap` is `returnNone` (line 128). -/
def opFlatMap (o : JSVal) (fn : JSVal → JSVal) : JSVal :=
  match o with
  | vsome x => fn x
  | vnone => vnone
  | _ => vundef

/-- `o.filter(fn)`: `someProto.filter` (lines 168–170) is
`fn(this.value) ? this : None`; `None.filter` is `returnNone` (line 129). -/
def opFilter (o : JSVal) (fn : JSVal → Bool) : JSVal :=
  match o with
  | vsome x => if fn x then vsome x else vnone
  | vnone => vnone
  | _ => vundef

/-- `o.isDefined()`: `true` on `someProto` (lines 153–155), `false` on
the `None` singleton (line 125). -/
def opIsDefined : JSVal → Bool
  | vsome _ => true
  | _ => false

/-- `o.orElse(alt)` instrumented with a ghost count (second component) of
how many times the zero-argument alternative was invoked:
`someProto.orElse` (lines 172–174) returns `this` without touching the
alternative; `None.orElse` (line 130) is `(alt) => alt()`. -/
def opOrElseCount (o : JSVal) (alt : Unit → JSVal) : JSVal × Nat :=
  match o with
  | vsome x => (vsome x, 0)
  | vnone => (alt (), 1)
  | _ => (vundef, 0)

/-- The enumerable members present on every `Some` instance: the own
fields set at lines 141–142 plus every key copied from `someProto`
(lines 144–146, source object at lines 151–191). -/
def someInstanceKeys : List String :=
  ["value", "_isSome", "isDefined", "map", "flatMap", "filter", "orElse",
   "getOrElse", "match", "toString", "toJSON"]

/-- The members assigned on the `None` singleton inside `makeNone`
(lines 120–137), in assignment order. -/
def noneInstanceKeys : List String :=
  ["isDefined", "_isNone", "map", "flatMap", "filter", "orElse",
   "getOrElse", "match", "toString", "toJSON"]

/-- Well-formedness of an option value: it is the `None` singleton, or a
`Some` whose contained value is neither `null` nor `undefined`. -/
def wellFormedOpt : JSVal → Bool
  | vnone => true
  | vsome v => isDef v
  | _ => false

/-! ## Helper lemmas -/

/-- The `isDef(result) ? Some(result) : None` construction pattern always
yields a well-formed option. -/
theorem wf_mk (r : JSVal) : wellFormedOpt (if isDef r then vsome r else vnone) = true := by
  by_cases h : isDef r = true
  · simp [h, wellFormedOpt]
  · simp only [Bool.not_eq_true] at h
    simp [h, wellFormedOpt]

/-- `OptionObject` always yields a well-formed option. -/
theorem wf_OptionObject (v : JSVal) : wellFormedOpt (OptionObject v) = true :=
  wf_mk v

/-! ## Claims -/

/-- C1: the smart constructor `Option(v)` returns a `Some` whose
invocation yields `v` when `v` is neither `null` nor `undefined`, and the
shared `None` singleton (the unique `vnone` value) when `v` is `null` or
`undefined`. -/
theorem c1_smart_constructor (v : JSVal) :
    (isDef v = true → OptionObject v = vsome v ∧ invoke (OptionObject v) = v) ∧
    (isDef v = false → OptionObject v = vnone) := by
  constructor
  · intro h
    simp [OptionObject, h, invoke]
  · intro h
    simp [OptionObject, h]

/-- Witness for C1 at `v = 3`, `v = null` and `v = undefined`. -/
theorem c1_smart_constructor_witness :
    (OptionObject (vnum 3) = vsome (vnum 3) ∧ invoke (OptionObject (vnum 3)) = vnum 3) ∧
    OptionObject vnull = vnone ∧ OptionObject vundef = vnone :=
  ⟨(c1_smart_constructor (vnum 3)).1 (by decide),
   (c1_smart_constructor vnull).2 (by decide),
   (c1_smart_constructor vundef).2 (by decide)⟩

/-- C2: for a non-null `x` and a mapping function `fn` whose result is an
ordinary value (not a space-lift wrapper, which C7 treats separately),
`Some(x).map(fn)` is `Some(fn x)` when `fn x` is neither `null` nor
`undefined` and `None` otherwise; in particular
`Some(x).map(_ => null).isDefined()` is `false`. -/
theorem c2_map_null_collapse (x : JSVal) (fn : JSVal → JSVal)
    (hx : isDef x = true) (hw : isLiftWrapper (fn x) = false) :
    (isDef (fn x) = true → opMap (vsome x) fn = vsome (fn x)) ∧
    (isDef (fn x) = false → opMap (vsome x) fn = vnone) ∧
    opIsDefined (opMap (vsome x) (fun _ => vnull)) = false := by
  refine ⟨?_, ?_, rfl⟩
  · intro h
    simp [opMap, someProto.map, hw, h]
  · intro h
    simp [opMap, someProto.map, hw, h]

/-- Witness for C2 at `x = 2` with `fn = (_ => 7)` and `fn = (_ => null)`. -/
theorem c2_map_null_collapse_witness :
    opMap (vsome (vnum 2)) (fun _ => vnum 7) = vsome (vnum 7) ∧
    opMap (vsome (vnum 2)) (fun _ => vnull) = vnone ∧
    opIsDefined (opMap (vsome (vnum 2)) (fun _ => vnull)) = false :=
  ⟨(c2_map_null_collapse (vnum 2) (fun _ => vnum 7) (by decide) (by decide)).1 (by decide),
   (c2_map_null_collapse (vnum 2) (fun _ => vnull) (by decide) (by decide)).2.1 (by decide),
   (c2_map_null_collapse (vnum 2) (fun _ => vnull) (by decide) (by decide)).2.2⟩

/-- C8: `Some(x).orElse(alt)` returns the very same `Some` and invokes
the alternative zero times (so even a throwing alternative is never
evaluated); `None.orElse(alt)` invokes the alternative exactly once and
returns its result. -/
theorem c8_orElse_lazy (x : JSVal) (alt : Unit → JSVal) :
    opOrElseCount (vsome x) alt = (vsome x, 0) ∧
    opOrElseCount vnone alt = (alt (), 1) :=
  ⟨rfl, rfl⟩

/-- C9: `flatMap` is associative on `Some` values:
`Some(x).flatMap(f).flatMap(g) = Some(x).flatMap(v => f(v).flatMap(g))`
for a non-null `x` and functions returning well-formed options. -/
theorem c9_flatMap_assoc (x : JSVal) (f g : JSVal → JSVal)
    (hx : isDef x = true)
    (hf : ∀ v, wellFormedOpt (f v) = true)
    (hg : ∀ v, wellFormedOpt (g v) = true) :
    opFlatMap (opFlatMap (vsome x) f) g =
      opFlatMap (vsome x) (fun v => opFlatMap (f v) g) := rfl

/-- Witness for C9 at `x = 1`, `f = (_ => None)`, `g = (_ => None)`. -/
theorem c9_flatMap_assoc_witness :
    opFlatMap (opFlatMap (vsome (vnum 1)) (fun _ => vnone)) (fun _ => vnone) =
      opFlatMap (vsome (vnum 1)) (fun v => opFlatMap ((fun _ => vnone) v) (fun _ => vnone)) :=
  c9_flatMap_assoc (vnum 1) (fun _ => vnone) (fun _ => vnone) (by decide)
    (fun _ => rfl) (fun _ => rfl)

/-- C3: every option produced by the public operations — the smart
constructor, `map`, `filter`, `Option.all`, and (assuming the
caller-supplied callees return well-formed options) `flatMap` and
`orElse` — is either the `None` singleton or a `Some` holding a value
that is neither `null` nor `undefined`. -/
theorem c3_invariant :
    (∀ v, wellFormedOpt (OptionObject v) = true) ∧
    (∀ o fn, wellFormedOpt o = true → wellFormedOpt (opMap o fn) = true) ∧
    (∀ o fn, wellFormedOpt o = true → wellFormedOpt (opFilter o fn) = true) ∧
    (∀ args, wellFormedOpt (OptionObject.all args) = true) ∧
    (∀ o fn, wellFormedOpt o = true → (∀ v, wellFormedOpt (fn v) = true) →
      wellFormedOpt (opFlatMap o fn) = true) ∧
    (∀ o alt, wellFormedOpt o = true → wellFormedOpt (alt ()) = true →
      wellFormedOpt (opOrElseCount o alt).1 = true) := by
  have hmap : ∀ x fn, wellFormedOpt (someProto.map x fn) = true := fun x fn => wf_mk _
  refine ⟨wf_OptionObject, ?_, ?_, ?_, ?_, ?_⟩
  · intro o fn h
    cases o <;> try simp [wellFormedOpt] at h
    case vsome x => exact hmap x fn
    case vnone => rfl
  · intro o fn h
    cases o <;> try simp [wellFormedOpt] at h
    case vsome x =>
      by_cases hc : fn x = true
      · simp [opFilter, hc, wellFormedOpt, h]
      · simp only [Bool.not_eq_true] at hc
        simp [opFilter, hc, wellFormedOpt]
    case vnone => rfl
  · intro args
    by_cases hl : (allValues args).length ≠ args.length
    · simp [OptionObject.all, hl, wellFormedOpt]
    · simp [OptionObject.all, hl, wf_OptionObject]
  · intro o fn h hfn
    cases o <;> try simp [wellFormedOpt] at h
    case vsome x => exact hfn x
    case vnone => rfl
  · intro o alt h halt
    cases o <;> try simp [wellFormedOpt] at h
    case vsome x => exact h
    case vnone => exact halt

/-- Witness for C3, exercising each public operation at a concrete
input. -/
theorem c3_invariant_witness :
    wellFormedOpt (OptionObject (vnum 3)) = true ∧
    wellFormedOpt (opMap (vsome (vnum 2)) (fun _ => vnull)) = true ∧
    wellFormedOpt (opFilter (vsome (vnum 2)) (fun _ => false)) = true ∧
    wellFormedOpt (OptionObject.all []) = true ∧
    wellFormedOpt (opFlatMap (vsome (vnum 2)) (fun _ => vnone)) = true ∧
    wellFormedOpt (opOrElseCount vnone (fun _ => vnone)).1 = true :=
  ⟨c3_invariant.1 (vnum 3),
   c3_invariant.2.1 (vsome (vnum 2)) (fun _ => vnull) (by decide),
   c3_invariant.2.2.1 (vsome (vnum 2)) (fun _ => false) (by decide),
   c3_invariant.2.2.2.1 [],
   c3_invariant.2.2.2.2.1 (vsome (vnum 2)) (fun _ => vnone) (by decide) (fun _ => rfl),
   c3_invariant.2.2.2.2.2 vnone (fun _ => vnone) (by decide) (by decide)⟩

/-- C6: the claim asserts a `forEach` operation, and the repository's
README documents one (`Option(33).forEach(x => console.log(x))`), but the
code defines no `forEach` member on either variant: it is absent from the
keys copied onto `Some` instances and from the members assigned on the
`None` singleton, so any `forEach` call throws a `TypeError` at runtime. -/
theorem c6_forEach_missing :
    ¬ ("forEach" ∈ someInstanceKeys) ∧ ¬ ("forEach" ∈ noneInstanceKeys) := by
  decide

/-- C7 counterexample: a plain object matching the exported `Wrapper`
shape (it exposes a `value()` method returning `42`) but carrying no
`_isLiftWrapper` tag is NOT unwrapped by `map`: the `Some` ends up
holding the wrapper object itself rather than `42`, contradicting the
claim that the exported `Wrapper` shape triggers unwrapping. -/
theorem c7_wrapper_shape_counterexample :
    objValue (vvalueObj (vnum 42)) = vnum 42 ∧
    opMap (vsome (vnum 1)) (fun _ => vvalueObj (vnum 42)) = vsome (vvalueObj (vnum 42)) ∧
    opMap (vsome (vnum 1)) (fun _ => vvalueObj (vnum 42)) ≠ vsome (vnum 42) := by
  refine ⟨rfl, rfl, fun h => ?_⟩
  have h2 : vsome (vvalueObj (vnum 42)) = vsome (vnum 42) := h
  injection h2 with h3
  injection h3

/-- C7 amended: for a non-null `x`, when `fn x` returns an object
carrying the truthy `_isLiftWrapper` tag, `Some(x).map(fn)` first unwraps
it by invoking its `value()` method and then applies the null-collapsing
rule to the unwrapped result. -/
theorem c7_lift_wrapper_unwrap (x w : JSVal) (fn : JSVal → JSVal)
    (hx : isDef x = true) (hfn : fn x = vliftWrapper w) :
    opMap (vsome x) fn = if isDef w then vsome w else vnone := by
  simp [opMap, someProto.map, hfn, truthy, isLiftWrapper, objValue]

/-- Witness for the amended C7 at `x = 1` with a tagged wrapper holding
`5`. -/
theorem c7_lift_wrapper_unwrap_witness :
    opMap (vsome (vnum 1)) (fun _ => vliftWrapper (vnum 5)) = vsome (vnum 5) :=
  (c7_lift_wrapper_unwrap (vnum 1) (vnum 5) (fun _ => vliftWrapper (vnum 5))
    (by decide) rfl).trans rfl

/-- C10: presence is decided by the null/undefined test, not by
truthiness: every defined falsy value `v` yields a `Some` whose
invocation returns `v`, and `Option.all` accumulates raw falsy inputs,
e.g. `Option.all(0, '', false)` is `Some([0, '', false])`. -/
theorem c10_falsy_values (v : JSVal) (hd : isDef v = true) (ht : truthy v = false) :
    (OptionObject v = vsome v ∧ invoke (OptionObject v) = v) ∧
    OptionObject.all [vnum 0, vstr "", vbool false] =
      vsome (varr [vnum 0, vstr "", vbool false]) := by
  constructor
  · simp [OptionObject, hd, invoke]
  · rfl

/-- Witness for C10 at `v = 0`. -/
theorem c10_falsy_values_witness :
    (OptionObject (vnum 0) = vsome (vnum 0) ∧ invoke (OptionObject (vnum 0)) = vnum 0) ∧
    OptionObject.all [vnum 0, vstr "", vbool false] =
      vsome (varr [vnum 0, vstr "", vbool false]) :=
  c10_falsy_values (vnum 0) (by decide) (by decide)

/-- When every argument in `args` unwraps to a defined value, the loop of
`Option.all` accumulates exactly the unwrapped values in input order. -/
theorem allLoop_fst_of_all_present (args : List JSVal)
    (h : ∀ a ∈ args, isDef (unwrapStep a) = true) :
    (allLoop args).1 = args.map unwrapStep := by
  induction args with
  | nil => rfl
  | cons a rest ih =>
    have ha : isDef (unwrapStep a) = true := h a (by simp)
    have ih2 := ih (fun b hb => h b (by simp [hb]))
    simp [allLoop, ha, ih2]

/-- When `args` splits as `pre ++ bad :: post` with every element of
`pre` unwrapping to a defined value and `bad` not, the loop of
`Option.all` stops at `bad`: the accumulated values are exactly the
unwrapped `pre`, and the unwrap step was evaluated only for the option
arguments among `pre ++ [bad]` — never for anything in `post`. -/
theorem allLoop_stops_at_first_failure (pre : List JSVal) (bad : JSVal) (post : List JSVal)
    (hpre : ∀ a ∈ pre, isDef (unwrapStep a) = true)
    (hbad : isDef (unwrapStep bad) = false) :
    allLoop (pre ++ bad :: post) =
      (pre.map unwrapStep, (pre ++ [bad]).filter (fun a => truthy a && isOption a)) := by
  induction pre with
  | nil =>
    simp only [List.nil_append, List.map_nil]
    by_cases hc : (truthy bad && isOption bad) = true
    · simp [allLoop, hbad, hc]
    · simp only [Bool.not_eq_true] at hc
      simp [allLoop, hbad, hc]
  | cons a pre ih =>
    have ha : isDef (unwrapStep a) = true := hpre a (by simp)
    have ih2 := ih (fun b hb => hpre b (by simp [hb]))
    by_cases hc : (truthy a && isOption a) = true
    · simp [allLoop, ha, ih2, hc]
    · simp only [Bool.not_eq_true] at hc
      simp [allLoop, ha, ih2, hc]

/-- C4: `Option.all` processes its arguments strictly left to right and,
at the first argument that is `None` or unwraps to `null`/`undefined`,
returns the `None` singleton; the unwrap step (the invocation of an
option argument) is evaluated only for the arguments up to and including
that first failing one, never for any later argument. -/
theorem c4_all_short_circuit (pre : List JSVal) (bad : JSVal) (post : List JSVal)
    (hpre : ∀ a ∈ pre, isDef (unwrapStep a) = true)
    (hbad : isDef (unwrapStep bad) = false) :
    OptionObject.all (pre ++ bad :: post) = vnone ∧
    allUnwraps (pre ++ bad :: post) =
      (pre ++ [bad]).filter (fun a => truthy a && isOption a) := by
  have h := allLoop_stops_at_first_failure pre bad post hpre hbad
  constructor
  · have hlen : (allValues (pre ++ bad :: post)).length ≠ (pre ++ bad :: post).length := by
      unfold allValues
      rw [h]
      simp
    simp only [OptionObject.all]
    rw [if_pos hlen]
  · unfold allUnwraps
    rw [h]

/-- Witness for C4 at the spec's example
`Option.all(Option(10), None, Option(5), null)`: the result is `None` and
the unwrap step ran only for the first two arguments, not for
`Option(5)`. -/
theorem c4_all_short_circuit_witness :
    OptionObject.all [vsome (vnum 10), vnone, vsome (vnum 5), vnull] = vnone ∧
    allUnwraps [vsome (vnum 10), vnone, vsome (vnum 5), vnull] =
      [vsome (vnum 10), vnone] := by
  have h := c4_all_short_circuit [vsome (vnum 10)] vnone [vsome (vnum 5), vnull]
    (by decide) (by decide)
  exact ⟨h.1, h.2.trans rfl⟩

/-- C5: when every argument of `Option.all` — after unwrapping the
option-valued ones — is neither `null` nor `undefined`, the result is a
`Some` holding the ordered array of the unwrapped values (so it has the
input length and order); with zero arguments the result is `Some([])`. -/
theorem c5_all_present (args : List JSVal)
    (h : ∀ a ∈ args, isDef (unwrapStep a) = true) :
    OptionObject.all args = vsome (varr (args.map unwrapStep)) := by
  have hv := allLoop_fst_of_all_present args h
  have hlen : ¬ (allValues args).length ≠ args.length := by
    unfold allValues
    rw [hv]
    simp
  simp only [OptionObject.all, hlen, if_neg, not_false_eq_true]
  unfold allValues
  rw [hv]
  simp [OptionObject, isDef]

/-- Witness for C5 at the spec's example `Option.all(Option(10), 20,
Option(5)) = Some([10, 20, 5])` and at the empty argument list. -/
theorem c5_all_present_witness :
    OptionObject.all [vsome (vnum 10), vnum 20, vsome (vnum 5)] =
      vsome (varr [vnum 10, vnum 20, vnum 5]) ∧
    OptionObject.all [] = vsome (varr []) :=
  ⟨(c5_all_present [vsome (vnum 10), vnum 20, vsome (vnum 5)] (by decide)).trans rfl,
   (c5_all_present [] (by decide)).trans rfl⟩
